import Mathlib

/-!
Shallow embedding of the ARM platform error-handling Standalone MM drivers
(`Platform/ARM/Drivers/CpuMm` and `Platform/ARM/Drivers/SramMm`).

The C drivers read a hardware-error snapshot, classify it, and serialize a
generic error status block (header + section descriptor + section payload)
into a firmware-reserved memory region.  The embedding models each handler as
a pure function from its inputs (the communication buffer, hardware register
values, residual values of uninitialized locals and of the reused memory
region) to a structured description of the bytes it writes.

Structure sizes (`sizeof` of CPER/ACPI structures) and the CPER field indexes
come from edk2 headers that are not part of this repository; they are kept as
parameters (the `Sizes` structure) and all theorems are universally
quantified over them, so no concrete layout is assumed.
-/

namespace ErrorMm

/-- EFI status codes returned by the handlers (only the ones the drivers
use are modelled; their concrete numeric values are irrelevant here). -/
inductive EfiStatus where
  | success
  | invalidParameter
  | badBufferSize
  | bufferTooSmall
  deriving DecidableEq, Repr

/-! ### ACPI / CPER constants

Fixed enumeration values from the ACPI specification (edk2
`IndustryStandard/Acpi6x.h`): 0 = Recoverable (named `CORRECTABLE` by the
deprecated edk2 macro the CPU driver uses), 1 = Fatal, 2 = Corrected,
3 = None. -/

def EFI_ACPI_ERROR_SEVERITY_CORRECTABLE : Nat := 0

def EFI_ACPI_ERROR_SEVERITY_FATAL : Nat := 1

def EFI_ACPI_ERROR_SEVERITY_CORRECTED : Nat := 2

def EFI_ACPI_ERROR_SEVERITY_NONE : Nat := 3

/-- `EFI_ACPI_6_x_GENERIC_ERROR_DATA_ENTRY_REVISION` (value irrelevant to the
claims; kept as the ACPI 6.3/6.4 constant). -/
def GENERIC_ERROR_DATA_ENTRY_REVISION : Nat := 0x300

/-- `EFI_ERROR_SECTION_FLAGS_LATENT_ERROR` (BIT5, edk2 `Guid/Cper.h`). -/
def EFI_ERROR_SECTION_FLAGS_LATENT_ERROR : Nat := 0x20

def BIT7 : Nat := 0x80

/-! Modelled from the spec: bit-flag and enumeration constants of the extended
CPER processor-error header (`EFI_ARM_PROC_ERROR_*`, `EFI_CACHE_ERROR_*`,
`EFI_TLB_ERROR_*`, `EFI_REG_CONTEXT_TYPE_*`) are declared in headers missing
from `src/`; the claims depend only on these constants being fixed and on
Cache/TLB being distinct, not on their numeric values. -/

def EFI_ARM_PROC_ERROR_MPIDR_VALID : Nat := 0x1

def EFI_ARM_PROC_ERROR_RUNNING_STATE_VALID : Nat := 0x10

def EFI_ARM_PROC_ERROR_INFO_MULTIPLE_ERROR_VALID : Nat := 0x1

def EFI_ARM_PROC_ERROR_INFO_FLAGS_VALID : Nat := 0x2

def EFI_ARM_PROC_ERROR_INFO_ERROR_INFO_VALID : Nat := 0x4

def EFI_ARM_PROC_ERROR_INFO_PHY_FAULT_ADDR_VALID : Nat := 0x8

/-- Processor error-information `Type` value for a cache error. -/
def EFI_ARM_PROC_ERROR_TYPE_CACHE : Nat := 0x2

/-- Processor error-information `Type` value for a TLB error. -/
def EFI_ARM_PROC_ERROR_TYPE_TLB : Nat := 0x4

def EFI_ARM_PROC_ERROR_INFO_OVERFLOW_FLAG : Nat := 0x8

def EFI_ARM_PROC_ERROR_INFO_FIRST_ERROR_CAPTURED_FLAG : Nat := 0x1

def EFI_ARM_PROCESSOR_ERROR_INFO_STRUCTURE_REVISION : Nat := 0x0

def EFI_TLB_ERROR_TRANSACTION_TYPE_VALID : Nat := 0x1

def EFI_TLB_ERROR_OPERATION_VALID : Nat := 0x2

def EFI_TLB_ERROR_LEVEL_VALID : Nat := 0x4

def EFI_TLB_ERROR_PROCESSOR_CONTEXT_CORRUPT_VALID : Nat := 0x8

def EFI_TLB_ERROR_CORRECTED_VALID : Nat := 0x10

def EFI_CACHE_ERROR_LEVEL_VALID : Nat := 0x4

def EFI_CACHE_ERROR_PROCESSOR_CONTEXT_CORRUPT_VALID : Nat := 0x8

def EFI_CACHE_ERROR_CORRECTED_VALID : Nat := 0x10

def EFI_CACHE_ERROR_TYPE_GENERIC : Nat := 0x0

def EFI_CACHE_ERROR_OPERATION_GENERIC_ERROR : Nat := 0x0

def EFI_TLB_ERROR_TYPE_GENERIC : Nat := 0x0

def EFI_TLB_ERROR_OPERATION_GENERIC_ERROR : Nat := 0x0

def EFI_REG_CONTEXT_TYPE_4 : Nat := 4

def EFI_REG_CONTEXT_TYPE_5 : Nat := 5

def EFI_REG_CONTEXT_TYPE_6 : Nat := 6

def EFI_PLATFORM_MEMORY_PHY_ADDRESS_VALID : Nat := 0x2

def EFI_PLATFORM_MEMORY_PHY_ADDRESS_MASK_VALID : Nat := 0x4

/-! ### Constants from `CpuMm.h` -/

/-- `CPU_ERR_INFO_NUM` -/
def CPU_ERR_INFO_NUM : Nat := 1

/-- `CPU_CONTEXT_INFO_NUM` -/
def CPU_CONTEXT_INFO_NUM : Nat := 3

/-- `CPU_ERR_STATUS_SERR_MASK` (0xFF) -/
def CPU_ERR_STATUS_SERR_MASK : Nat := 0xFF

/-- `CPU_ERR_STATUS_DE_BIT` (BIT23) -/
def CPU_ERR_STATUS_DE_BIT : Nat := 2 ^ 23

/-- `CPU_ERR_STATUS_CE_MASK` (BIT24|BIT25) -/
def CPU_ERR_STATUS_CE_MASK : Nat := 2 ^ 24 + 2 ^ 25

/-- `CPU_ERR_STATUS_OF_BIT` (BIT27) -/
def CPU_ERR_STATUS_OF_BIT : Nat := 2 ^ 27

/-- `CPU_ERR_STATUS_SERR_TLB` (0x08): threshold between cache-class and
TLB-class error syndromes. -/
def CPU_ERR_STATUS_SERR_TLB : Nat := 0x08

/-- `CPU_ERR_MISC0_LVL_MASK` (BIT1|BIT2|BIT3) -/
def CPU_ERR_MISC0_LVL_MASK : Nat := 0xE

/-- `CPU_ERR_MISC0_LVL_SHIFT` -/
def CPU_ERR_MISC0_LVL_SHIFT : Nat := 1

/-- `CPU_ERR_MISC0_CECR_COUNT_MASK` -/
def CPU_ERR_MISC0_CECR_COUNT_MASK : Nat := 0xFF00000000

/-- `CPU_ERR_MISC0_CECR_COUNT_SHIFT` -/
def CPU_ERR_MISC0_CECR_COUNT_SHIFT : Nat := 32

/-- Security state `SECURE` -/
def SECURE : Nat := 0

/-- Security state `NON_SECURE` -/
def NON_SECURE : Nat := 1

/-! ### Constants from `SramMm.h` -/

/-- `ECC_ERR_STATUS_CE_BIT` (BIT0) -/
def ECC_ERR_STATUS_CE_BIT : Nat := 0x1

/-- `ECC_ERR_STATUS_UE_BIT` (BIT1) -/
def ECC_ERR_STATUS_UE_BIT : Nat := 0x2

/-- `ECC_ERR_CODE_MBIT_TYPE_MASK` (BIT4|BIT3) -/
def ECC_ERR_CODE_MBIT_TYPE_MASK : Nat := 0x18

/-- `ECC_ERR_CODE_MBIT_TYPE_SHIFT` -/
def ECC_ERR_CODE_MBIT_TYPE_SHIFT : Nat := 3

/-- `ECC_ERR_CODE_MBIT_CE_ERR` -/
def ECC_ERR_CODE_MBIT_CE_ERR : Nat := 0x1

/-- `ECC_ERR_CODE_MBIT_UE_ERR` -/
def ECC_ERR_CODE_MBIT_UE_ERR : Nat := 0x2

/-! ### Structure sizes and field indexes

`sizeof` values of the CPER/ACPI structures and the `OFFSET_OF`-derived
register-array indexes are compile-time constants of headers not contained in
`src/`.  They are collected in one parameter record; every theorem is stated
for all values of these parameters. -/

/-- The `sizeof`/offset constants the drivers use.  Field names follow the C
type each size belongs to. -/
structure Sizes where
  /-- `sizeof (EFI_ACPI_6_x_GENERIC_ERROR_STATUS_STRUCTURE)` -/
  szGenericErrorStatus : Nat
  /-- `sizeof (EFI_ACPI_6_x_GENERIC_ERROR_DATA_ENTRY_STRUCTURE)` -/
  szGenericErrorDataEntry : Nat
  /-- `sizeof (EFI_ARM_PROCESSOR_ERROR_RECORD)` -/
  szArmProcErrorRecord : Nat
  /-- `sizeof (EFI_ARM_PROCESSOR_ERROR_INFORMATION)` -/
  szArmProcErrorInfo : Nat
  /-- `sizeof (EFI_ARM_PROCESSOR_CONTEXT_INFORMATION)` -/
  szArmProcContextInfo : Nat
  /-- `sizeof (EFI_CONTEXT_REGISTER_ARRAY_INFO)` -/
  szContextRegisterArrayInfo : Nat
  /-- `sizeof (EFI_PLATFORM_MEMORY_ERROR_DATA)` -/
  szMemErrorData : Nat
  /-- `sizeof (CPU_ERR_INFO)` -/
  szCpuErrInfoStruct : Nat
  /-- `sizeof (EFI_ACPI_6_4_GENERIC_HARDWARE_ERROR_SOURCE_VERSION_2_STRUCTURE)` -/
  szGhesV2Struct : Nat
  /-- `CONTEXT_STRUCT_EL1_MPIDR_FIELD` -/
  idxMpidr : Nat
  /-- `CONTEXT_STRUCT_EL1_MIDR_FIELD` -/
  idxMidr : Nat
  deriving DecidableEq, Repr

/-- `CPU_SECTION_DATA_SIZE (state)` from `CpuMm.h`: size of the CPU section
payload; the context-information blocks contribute only multiplied by the
security state.  Computed in C `size_t` (64-bit) arithmetic. -/
def CPU_SECTION_DATA_SIZE (sz : Sizes) (state : Nat) : Nat :=
  (sz.szArmProcErrorRecord +
   sz.szArmProcErrorInfo * CPU_ERR_INFO_NUM +
   sz.szArmProcContextInfo * CPU_CONTEXT_INFO_NUM * state) % 2 ^ 64

/-! ### Input data structures -/

/-- `CPU_ERR_INFO` (from `CpuMm.h`): the communication-buffer payload for the
CPU error event handler.  Register arrays are modelled as lists of `UINT64`
values. -/
structure CPU_ERR_INFO where
  ErrStatus : Nat
  ErrMisc0 : Nat
  ErrAddr : Nat
  SecurityState : Nat
  ErrCtxGpr : List Nat
  ErrCtxEl1Reg : List Nat
  ErrCtxEl2Reg : List Nat
  ErrCtxEl3Reg : List Nat
  deriving DecidableEq, Repr

/-! ### Output data structures (written into the firmware-reserved region) -/

/-- The bitfield of `EFI_ACPI_6_x_GENERIC_ERROR_STATUS_STRUCTURE.BlockStatus`. -/
structure BlockStatusFlags where
  UncorrectableErrorValid : Nat
  CorrectableErrorValid : Nat
  MultipleUncorrectableErrors : Nat
  MultipleCorrectableErrors : Nat
  ErrorDataEntryCount : Nat
  deriving DecidableEq, Repr

/-- `EFI_ACPI_6_x_GENERIC_ERROR_STATUS_STRUCTURE` (status-block header). -/
structure GenericErrorStatus where
  BlockStatus : BlockStatusFlags
  RawDataOffset : Nat
  RawDataLength : Nat
  DataLength : Nat
  ErrorSeverity : Nat
  deriving DecidableEq, Repr

/-- Section-type GUID written into the section descriptor, modelled as the
choice between the two well-known constants the drivers use. -/
inductive SectionTypeGuid where
  | armProcessorSpecific
  | platformMemory
  deriving DecidableEq, Repr

/-- `EFI_ACPI_6_x_GENERIC_ERROR_DATA_ENTRY_STRUCTURE` (section descriptor). -/
structure GenericErrorDataEntry where
  ErrorSeverity : Nat
  Revision : Nat
  ValidationBits : Nat
  Flags : Nat
  ErrorDataLength : Nat
  SectionType : SectionTypeGuid
  deriving DecidableEq, Repr

/-- `EFI_ARM_PROCESSOR_ERROR_RECORD` as populated by the CPU handler. -/
structure EFI_ARM_PROCESSOR_ERROR_RECORD where
  ValidFields : Nat
  ErrInfoNum : Nat
  ContextInfoNum : Nat
  SectionLength : Nat
  MPIDR_EL1 : Nat
  MIDR_EL1 : Nat
  RunState : Nat
  PsciState : Nat
  deriving DecidableEq, Repr

/-- The cache/TLB detail block of the error-information sub-record (both C
structures carry the same field set). -/
structure CacheTlbErrorDetail where
  ValidFields : Nat
  TransactionType : Nat
  Operation : Nat
  Level : Nat
  ContextCorrupt : Nat
  ErrorCorrected : Nat
  PrecisePc : Nat
  RestartablePc : Nat
  deriving DecidableEq, Repr

/-- The `ErrorInfo` union inside `EFI_ARM_PROCESSOR_ERROR_INFORMATION`,
discriminated by which member the handler wrote. -/
inductive ArmErrorInfoDetail where
  | cacheErrorInfo (d : CacheTlbErrorDetail)
  | tlbErrorInfo (d : CacheTlbErrorDetail)
  deriving DecidableEq, Repr

/-- `EFI_ARM_PROCESSOR_ERROR_INFORMATION` as populated by the CPU handler.
The C field `Type` is rendered `ErrType` (`Type` is reserved in Lean). -/
structure EFI_ARM_PROCESSOR_ERROR_INFORMATION where
  Version : Nat
  Length : Nat
  ValidFields : Nat
  ErrType : Nat
  MultipleError : Nat
  Flags : Nat
  VirtualFaultAddress : Nat
  PhysicalFaultAddress : Nat
  ErrorInfo : ArmErrorInfoDetail
  deriving DecidableEq, Repr

/-- `EFI_ARM_PROCESSOR_CONTEXT_INFORMATION` as populated by the CPU handler;
`Registers` holds the register values copied in by `CopyMem`. -/
structure EFI_ARM_PROCESSOR_CONTEXT_INFORMATION where
  Version : Nat
  RegisterContextType : Nat
  RegisterArraySize : Nat
  Registers : List Nat
  deriving DecidableEq, Repr

/-- Everything `CpuErrorEventHandler` writes into the firmware-reserved error
status region on its success path.  `sectionContexts` is `some` exactly when
the handler populated the three context-information sub-blocks (the
Non-Secure path); `copiedBytes` is the third `CopyMem` argument of the final
section-data copy. -/
structure CpuRegionWrite where
  header : GenericErrorStatus
  desc : GenericErrorDataEntry
  sectionCpuInfo : EFI_ARM_PROCESSOR_ERROR_RECORD
  sectionErrInfo : EFI_ARM_PROCESSOR_ERROR_INFORMATION
  sectionContexts : Option (EFI_ARM_PROCESSOR_CONTEXT_INFORMATION ×
    EFI_ARM_PROCESSOR_CONTEXT_INFORMATION ×
    EFI_ARM_PROCESSOR_CONTEXT_INFORMATION)
  copiedBytes : Nat
  deriving DecidableEq, Repr

/-- Block Status Header population (`CpuMm.c` lines 85-104).  The local
`CorrectedError` is translated exactly as the C declares it: initialized to
`1` and never reassigned. -/
def cpuHeaderOf (sz : Sizes) (cpuErr : CPU_ERR_INFO) : GenericErrorStatus :=
  let CorrectedError : Nat := 1
  { BlockStatus :=
      { UncorrectableErrorValid := if CorrectedError = 0 then 0 else 1
        CorrectableErrorValid :=
          if cpuErr.ErrStatus &&& CPU_ERR_STATUS_CE_MASK ≠ 0 then 1 else 0
        MultipleUncorrectableErrors := 0x0
        MultipleCorrectableErrors := 0x0
        ErrorDataEntryCount := 0x1 }
    RawDataOffset :=
      (sz.szGenericErrorStatus + sz.szGenericErrorDataEntry) % 2 ^ 32
    RawDataLength := 0
    DataLength :=
      (sz.szGenericErrorDataEntry +
       CPU_SECTION_DATA_SIZE sz cpuErr.SecurityState) % 2 ^ 32
    ErrorSeverity :=
      if cpuErr.ErrStatus &&& CPU_ERR_STATUS_CE_MASK ≠ 0 then
        EFI_ACPI_ERROR_SEVERITY_CORRECTED
      else
        EFI_ACPI_ERROR_SEVERITY_CORRECTABLE }

/-- Section Descriptor population (`CpuMm.c` lines 111-130).
`prevDescFlags` is the residual value of the descriptor's `Flags` byte in
the reused firmware-reserved region: the C code or-assigns (`|=`) into that
field without clearing it first. -/
def cpuDescOf (sz : Sizes) (prevDescFlags : Nat)
    (cpuErr : CPU_ERR_INFO) : GenericErrorDataEntry :=
  { ErrorSeverity :=
      if cpuErr.ErrStatus &&& CPU_ERR_STATUS_CE_MASK ≠ 0 then
        EFI_ACPI_ERROR_SEVERITY_CORRECTED
      else
        EFI_ACPI_ERROR_SEVERITY_CORRECTABLE
    Revision := GENERIC_ERROR_DATA_ENTRY_REVISION
    ValidationBits := 0
    Flags :=
      if cpuErr.ErrStatus &&& CPU_ERR_STATUS_CE_MASK ≠ 0 then
        if cpuErr.ErrStatus &&& CPU_ERR_STATUS_OF_BIT ≠ 0 then
          prevDescFlags ||| BIT7
        else prevDescFlags
      else if cpuErr.ErrStatus &&& CPU_ERR_STATUS_DE_BIT ≠ 0 then
        prevDescFlags ||| EFI_ERROR_SECTION_FLAGS_LATENT_ERROR
      else prevDescFlags
    ErrorDataLength := CPU_SECTION_DATA_SIZE sz cpuErr.SecurityState % 2 ^ 32
    SectionType := SectionTypeGuid.armProcessorSpecific }

/-- `EFI_ARM_PROCESSOR_ERROR_RECORD` population (`CpuMm.c` lines 144-156). -/
def cpuInfoRecordOf (sz : Sizes)
    (cpuErr : CPU_ERR_INFO) : EFI_ARM_PROCESSOR_ERROR_RECORD :=
  let runState : Nat := 0x1
  { ValidFields :=
      EFI_ARM_PROC_ERROR_MPIDR_VALID ||| EFI_ARM_PROC_ERROR_RUNNING_STATE_VALID
    ErrInfoNum := CPU_ERR_INFO_NUM
    ContextInfoNum := CPU_CONTEXT_INFO_NUM
    SectionLength := CPU_SECTION_DATA_SIZE sz cpuErr.SecurityState % 2 ^ 32
    MPIDR_EL1 := cpuErr.ErrCtxEl1Reg.getD sz.idxMpidr 0
    MIDR_EL1 := cpuErr.ErrCtxEl1Reg.getD sz.idxMidr 0
    RunState := runState
    PsciState := if runState ≠ 0 then 0 else 1 }

/-- Error-type classification (`CpuMm.c` lines 161-167): the low-byte error
syndrome of `ErrStatus` below the `CPU_ERR_STATUS_SERR_TLB` threshold is a
cache error, otherwise a TLB error. -/
def cpuErrorTypeOf (cpuErr : CPU_ERR_INFO) : Nat :=
  if cpuErr.ErrStatus &&& CPU_ERR_STATUS_SERR_MASK < CPU_ERR_STATUS_SERR_TLB
  then EFI_ARM_PROC_ERROR_TYPE_CACHE
  else EFI_ARM_PROC_ERROR_TYPE_TLB

/-- Cache-or-TLB detail block population (`CpuMm.c` lines 190-237). -/
def cpuErrInfoDetailOf (cpuErr : CPU_ERR_INFO) : ArmErrorInfoDetail :=
  if cpuErrorTypeOf cpuErr = EFI_ARM_PROC_ERROR_TYPE_CACHE then
    ArmErrorInfoDetail.cacheErrorInfo
      { ValidFields :=
          EFI_TLB_ERROR_TRANSACTION_TYPE_VALID |||
          EFI_TLB_ERROR_OPERATION_VALID |||
          EFI_CACHE_ERROR_LEVEL_VALID |||
          EFI_CACHE_ERROR_PROCESSOR_CONTEXT_CORRUPT_VALID |||
          EFI_CACHE_ERROR_CORRECTED_VALID
        TransactionType := EFI_CACHE_ERROR_TYPE_GENERIC
        Operation := EFI_CACHE_ERROR_OPERATION_GENERIC_ERROR
        Level :=
          (cpuErr.ErrMisc0 &&& CPU_ERR_MISC0_LVL_MASK) >>>
            CPU_ERR_MISC0_LVL_SHIFT
        ContextCorrupt := 0
        ErrorCorrected :=
          if cpuErr.ErrStatus &&& CPU_ERR_STATUS_CE_MASK ≠ 0 then 1 else 0
        PrecisePc := 0
        RestartablePc := 0 }
  else
    ArmErrorInfoDetail.tlbErrorInfo
      { ValidFields :=
          EFI_TLB_ERROR_TRANSACTION_TYPE_VALID |||
          EFI_TLB_ERROR_OPERATION_VALID |||
          EFI_TLB_ERROR_LEVEL_VALID |||
          EFI_TLB_ERROR_PROCESSOR_CONTEXT_CORRUPT_VALID |||
          EFI_TLB_ERROR_CORRECTED_VALID
        TransactionType := EFI_TLB_ERROR_TYPE_GENERIC
        Operation := EFI_TLB_ERROR_OPERATION_GENERIC_ERROR
        -- The C code shifts by CPU_ERR_MISC0_LVL_MASK here (not LVL_SHIFT).
        Level :=
          (cpuErr.ErrMisc0 &&& CPU_ERR_MISC0_LVL_MASK) >>>
            CPU_ERR_MISC0_LVL_MASK
        ContextCorrupt := 0
        ErrorCorrected :=
          if cpuErr.ErrStatus &&& CPU_ERR_STATUS_CE_MASK ≠ 0 then 1 else 0
        PrecisePc := 0
        RestartablePc := 0 }

/-- `EFI_ARM_PROCESSOR_ERROR_INFORMATION` population (`CpuMm.c` lines
158-238; the loop runs for the single `CPU_ERR_INFO_NUM = 1` element). -/
def cpuSectionErrInfoOf (sz : Sizes)
    (cpuErr : CPU_ERR_INFO) : EFI_ARM_PROCESSOR_ERROR_INFORMATION :=
  let errorCount : Nat :=
    ((cpuErr.ErrMisc0 &&& CPU_ERR_MISC0_CECR_COUNT_MASK) >>>
      CPU_ERR_MISC0_CECR_COUNT_SHIFT) % 2 ^ 16
  { Version := EFI_ARM_PROCESSOR_ERROR_INFO_STRUCTURE_REVISION
    Length := sz.szArmProcErrorInfo % 2 ^ 8
    ValidFields :=
      EFI_ARM_PROC_ERROR_INFO_MULTIPLE_ERROR_VALID |||
      EFI_ARM_PROC_ERROR_INFO_FLAGS_VALID |||
      EFI_ARM_PROC_ERROR_INFO_ERROR_INFO_VALID |||
      EFI_ARM_PROC_ERROR_INFO_PHY_FAULT_ADDR_VALID
    ErrType := cpuErrorTypeOf cpuErr
    MultipleError :=
      if cpuErr.ErrStatus &&& CPU_ERR_STATUS_DE_BIT ≠ 0 then 0 else errorCount
    Flags :=
      if cpuErr.ErrStatus &&& CPU_ERR_STATUS_CE_MASK ≠ 0 then
        EFI_ARM_PROC_ERROR_INFO_OVERFLOW_FLAG
      else
        EFI_ARM_PROC_ERROR_INFO_FIRST_ERROR_CAPTURED_FLAG
    VirtualFaultAddress := 0
    PhysicalFaultAddress := cpuErr.ErrAddr
    ErrorInfo := cpuErrInfoDetailOf cpuErr }

/-- `EFI_ARM_PROCESSOR_CONTEXT_INFORMATION` population (`CpuMm.c` lines
240-278): the three context sub-blocks are populated only when the error
occurred in the `NON_SECURE` state. -/
def cpuContextsOf (sz : Sizes) (cpuErr : CPU_ERR_INFO) :
    Option (EFI_ARM_PROCESSOR_CONTEXT_INFORMATION ×
      EFI_ARM_PROCESSOR_CONTEXT_INFORMATION ×
      EFI_ARM_PROCESSOR_CONTEXT_INFORMATION) :=
  if cpuErr.SecurityState = NON_SECURE then
    some
      ({ Version := 0
         RegisterContextType := EFI_REG_CONTEXT_TYPE_4
         RegisterArraySize := sz.szContextRegisterArrayInfo % 2 ^ 32
         Registers := cpuErr.ErrCtxGpr },
       { Version := 0
         RegisterContextType := EFI_REG_CONTEXT_TYPE_5
         RegisterArraySize := sz.szContextRegisterArrayInfo % 2 ^ 32
         Registers := cpuErr.ErrCtxEl1Reg },
       { Version := 0
         RegisterContextType := EFI_REG_CONTEXT_TYPE_6
         RegisterArraySize := sz.szContextRegisterArrayInfo % 2 ^ 32
         Registers := cpuErr.ErrCtxEl2Reg })
  else none

/-- The success-path body of `CpuErrorEventHandler` (`CpuMm.c` lines
72-285): the error-status region content produced for the snapshot
`cpuErr`, assembled from the population blocks above; `copiedBytes` is the
third argument of the final section-data `CopyMem`. -/
def cpuRegionWriteOf (sz : Sizes) (prevDescFlags : Nat)
    (cpuErr : CPU_ERR_INFO) : CpuRegionWrite :=
  { header := cpuHeaderOf sz cpuErr
    desc := cpuDescOf sz prevDescFlags cpuErr
    sectionCpuInfo := cpuInfoRecordOf sz cpuErr
    sectionErrInfo := cpuSectionErrInfoOf sz cpuErr
    sectionContexts := cpuContextsOf sz cpuErr
    copiedBytes := CPU_SECTION_DATA_SIZE sz cpuErr.SecurityState }

/-- Result of one `CpuErrorEventHandler` invocation.  `write` is `none` when
the handler returned before touching the error-status region; `inputRead` is
`true` once the handler has dereferenced the communication buffer;
`bufferSizeOut` is the final value of `*CpuBufferSize`. -/
structure CpuHandlerResult where
  status : EfiStatus
  write : Option CpuRegionWrite
  inputRead : Bool
  bufferSizeOut : Nat
  deriving DecidableEq, Repr

/-- `CpuErrorEventHandler` (`CpuMm.c` lines 44-291).  `cpuBuffer` is `none`
for a NULL comm buffer, `bufferSize` the value of `*CpuBufferSize`. -/
def CpuErrorEventHandler (sz : Sizes) (prevDescFlags : Nat)
    (cpuBuffer : Option CPU_ERR_INFO) (bufferSize : Nat) : CpuHandlerResult :=
  match cpuBuffer with
  | none =>
    { status := EfiStatus.invalidParameter
      write := none
      inputRead := false
      bufferSizeOut := bufferSize }
  | some cpuErr =>
    if bufferSize < sz.szCpuErrInfoStruct then
      { status := EfiStatus.badBufferSize
        write := none
        inputRead := false
        bufferSizeOut := bufferSize }
    else
      { status := EfiStatus.success
        write := some (cpuRegionWriteOf sz prevDescFlags cpuErr)
        inputRead := true
        bufferSizeOut := 0 }

/-! ### SRAM (Base Element RAM) driver -/

/-- The values the three `MmioRead32` calls at the top of `SramErrorHandler`
return (registers at offsets `ERRSTATUS`, `ERRCODE`, `ERRADDR` of the ECC
record base).  `MmioRead32` yields `UINT32` values. -/
structure SramRegisters where
  ErrStatus : Nat
  ErrCode : Nat
  ErrAddr : Nat
  deriving DecidableEq, Repr

/-- Residual (garbage) values of the locals of `SramErrorHandler` that the C
code declares without initializing and reads on some paths:
`CorrectedError` and `UncorrectableError` are only assigned inside taken
branches of the `if`/`else if` ladder, `MultibitCE`/`MultibitUE` only when
`ErrCode != 0`. -/
structure SramUninitLocals where
  CorrectedError : Bool
  UncorrectableError : Bool
  MultibitCE : Nat
  MultibitUE : Nat
  deriving DecidableEq, Repr

/-- `EFI_PLATFORM_MEMORY_ERROR_DATA` as populated by `SramErrorHandler`.
The structure is first zeroed by `ZeroMem`; only the three fields below are
then assigned, so every other field of the C structure is 0 and is omitted
here. -/
structure EFI_PLATFORM_MEMORY_ERROR_DATA where
  ValidFields : Nat
  PhysicalAddressMask : Nat
  PhysicalAddress : Nat
  deriving DecidableEq, Repr

/-- Everything `SramErrorHandler` writes into the firmware-reserved error
status region; `copiedBytes` is the third `CopyMem` argument of the final
section-data copy. -/
structure SramRegionWrite where
  header : GenericErrorStatus
  desc : GenericErrorDataEntry
  memorySection : EFI_PLATFORM_MEMORY_ERROR_DATA
  copiedBytes : Nat
  deriving DecidableEq, Repr

/-- `CorrectedError` after the `if`/`else if` ladder of `SramMm.c` lines
57-61 (assigned only when the CE bit is set). -/
def sramCorrectedErrorOf (regs : SramRegisters)
    (junk : SramUninitLocals) : Bool :=
  if regs.ErrStatus &&& ECC_ERR_STATUS_CE_BIT ≠ 0 then true
  else junk.CorrectedError

/-- `UncorrectableError` after the `if`/`else if` ladder of `SramMm.c`
lines 57-61 (assigned only when the CE bit is clear and the UE bit set). -/
def sramUncorrectableErrorOf (regs : SramRegisters)
    (junk : SramUninitLocals) : Bool :=
  if regs.ErrStatus &&& ECC_ERR_STATUS_CE_BIT = 0 ∧
     regs.ErrStatus &&& ECC_ERR_STATUS_UE_BIT ≠ 0 then true
  else junk.UncorrectableError

/-- `(MultibitCE, MultibitUE)` after `SramMm.c` lines 63-69 (assigned only
when `ErrCode` is non-zero; the C code masks after shifting). -/
def sramMultibitOf (regs : SramRegisters)
    (junk : SramUninitLocals) : Nat × Nat :=
  if regs.ErrCode ≠ 0 then
    let multibitError :=
      (regs.ErrCode >>> ECC_ERR_CODE_MBIT_TYPE_SHIFT) &&&
        ECC_ERR_CODE_MBIT_TYPE_MASK
    ((if multibitError = ECC_ERR_CODE_MBIT_CE_ERR then 1 else 0),
     (if multibitError = ECC_ERR_CODE_MBIT_UE_ERR then 1 else 0))
  else (junk.MultibitCE, junk.MultibitUE)

/-- `SramErrorHandler` (`SramMm.c` lines 27-138): the error-status region
content produced from the register values `regs`, given the residual values
`junk` of its uninitialized locals.  (The read-back/write-back that clears
the hardware `ERRSTATUS` register is a hardware side effect with no bearing
on the region content and is not represented.) -/
def SramErrorHandler (sz : Sizes) (regs : SramRegisters)
    (junk : SramUninitLocals) : SramRegionWrite :=
  { header :=
      { BlockStatus :=
          { UncorrectableErrorValid :=
              if sramUncorrectableErrorOf regs junk then 1 else 0
            CorrectableErrorValid :=
              if sramCorrectedErrorOf regs junk then 1 else 0
            MultipleUncorrectableErrors := (sramMultibitOf regs junk).2
            MultipleCorrectableErrors := (sramMultibitOf regs junk).1
            ErrorDataEntryCount := 0x1 }
        RawDataOffset :=
          (sz.szGenericErrorStatus + sz.szGenericErrorDataEntry) % 2 ^ 32
        RawDataLength := 0
        DataLength := (sz.szGenericErrorDataEntry + sz.szMemErrorData) % 2 ^ 32
        ErrorSeverity :=
          if sramCorrectedErrorOf regs junk then
            EFI_ACPI_ERROR_SEVERITY_CORRECTED
          else EFI_ACPI_ERROR_SEVERITY_FATAL }
    desc :=
      { ErrorSeverity :=
          if sramCorrectedErrorOf regs junk then
            EFI_ACPI_ERROR_SEVERITY_CORRECTED
          else EFI_ACPI_ERROR_SEVERITY_FATAL
        Revision := GENERIC_ERROR_DATA_ENTRY_REVISION
        ValidationBits := 0
        Flags := 0
        ErrorDataLength := sz.szMemErrorData % 2 ^ 32
        SectionType := SectionTypeGuid.platformMemory }
    -- Faulting memory address information (the structure is zeroed by
    -- ZeroMem before the three assignments below).
    memorySection :=
      { ValidFields :=
          0 ||| (EFI_PLATFORM_MEMORY_PHY_ADDRESS_MASK_VALID |||
                 EFI_PLATFORM_MEMORY_PHY_ADDRESS_VALID)
        PhysicalAddressMask := 0xFFFFFFFFFFFF
        PhysicalAddress := regs.ErrAddr }
    copiedBytes := sz.szMemErrorData }

/-- Result of one `SramErrorEventMmiHandler` invocation.  `write` is `none`
when the handler returned before invoking `SramErrorHandler` (so before any
hardware register access or region write); `bufferSizeOut` is the final
value of `*SramBufferSize`. -/
structure SramHandlerResult where
  status : EfiStatus
  write : Option SramRegionWrite
  nonSecureSelected : Bool
  bufferSizeOut : Nat
  deriving DecidableEq, Repr

/-- `SramErrorEventMmiHandler` (`SramMm.c` lines 161-193).  `sramBuffer` is
`none` for a NULL comm buffer and otherwise carries the `UINTN` value at the
start of the buffer; `regsNS`/`regsS` are the register values of the
non-secure resp. secure ECC record bank.  The C code narrows the `UINTN` to
`BOOLEAN` (an 8-bit type) before comparing with `TRUE` (1). -/
def SramErrorEventMmiHandler (sz : Sizes) (regsNS regsS : SramRegisters)
    (junk : SramUninitLocals) (sramBuffer : Option Nat)
    (bufferSize : Nat) : SramHandlerResult :=
  match sramBuffer with
  | none =>
    { status := EfiStatus.invalidParameter
      write := none
      nonSecureSelected := false
      bufferSizeOut := bufferSize }
  | some bufVal =>
    -- sizeof (BOOLEAN) = 1 in UEFI (BOOLEAN is a 1-byte type).
    if bufferSize < 1 then
      { status := EfiStatus.badBufferSize
        write := none
        nonSecureSelected := false
        bufferSizeOut := bufferSize }
    else
      let isNonSecureSram : Nat := bufVal % 2 ^ 8
      if isNonSecureSram = 1 then
        { status := EfiStatus.success
          write := some (SramErrorHandler sz regsNS junk)
          nonSecureSelected := true
          bufferSizeOut := 0 }
      else
        { status := EfiStatus.success
          write := some (SramErrorHandler sz regsS junk)
          nonSecureSelected := false
          bufferSizeOut := 0 }

/-! ### Error-source descriptor registry (query-length / fill protocol) -/

/-- Result of one `CpuErrorSourceDescInfoGet` / `SramErrorSourceDescInfoGet`
invocation.  `lengthOut`/`countOut` are the values written through the
`ErrorSourcesLength`/`ErrorSourcesCount` out-pointers (`none` when the call
returned without writing them); `firmwareRegionInitialized` records whether
the `SetMem`/status-register initialization of the firmware-reserved region
ran; `descriptorWritten` whether the GHESv2 descriptor record was written
into the caller's buffer. -/
structure DescInfoResult where
  status : EfiStatus
  lengthOut : Option Nat
  countOut : Option Nat
  firmwareRegionInitialized : Bool
  descriptorWritten : Bool
  deriving DecidableEq, Repr

/-- `CpuErrorSourceDescInfoGet` (`CpuMmErrorSourceInfo.c` lines 39-138).
`pcdErrorSourceCount` is the build-time `PcdCpuErrorSourceCount` value;
`lenPtrValid`/`countPtrValid` are false when the corresponding out-pointer is
NULL; `buffer` is `none` when the `Buffer` parameter is NULL and otherwise
carries the caller-allocated buffer's capacity in bytes — which the C code
never consults. -/
def CpuErrorSourceDescInfoGet (sz : Sizes) (pcdErrorSourceCount : Nat)
    (lenPtrValid countPtrValid : Bool) (buffer : Option Nat) : DescInfoResult :=
  if ¬lenPtrValid ∨ ¬countPtrValid then
    { status := EfiStatus.invalidParameter
      lengthOut := none
      countOut := none
      firmwareRegionInitialized := false
      descriptorWritten := false }
  else
    -- FixedPcdGet64 for the length product, FixedPcdGet32 for the count.
    let length := pcdErrorSourceCount * sz.szGhesV2Struct % 2 ^ 64
    let count := pcdErrorSourceCount % 2 ^ 32
    match buffer with
    | none =>
      { status := EfiStatus.bufferTooSmall
        lengthOut := some length
        countOut := some count
        firmwareRegionInitialized := false
        descriptorWritten := false }
    | some _ =>
      { status := EfiStatus.success
        lengthOut := some length
        countOut := some count
        firmwareRegionInitialized := true
        descriptorWritten := true }

/-- `SramErrorSourceDescInfoGet` (`SramMmErrorSourceInfo.c` lines 41-140);
identical control flow to the CPU variant (the SRAM variant reads the count
Pcd with `FixedPcdGet64`). -/
def SramErrorSourceDescInfoGet (sz : Sizes) (pcdErrorSourceCount : Nat)
    (lenPtrValid countPtrValid : Bool) (buffer : Option Nat) : DescInfoResult :=
  if ¬lenPtrValid ∨ ¬countPtrValid then
    { status := EfiStatus.invalidParameter
      lengthOut := none
      countOut := none
      firmwareRegionInitialized := false
      descriptorWritten := false }
  else
    let length := pcdErrorSourceCount * sz.szGhesV2Struct % 2 ^ 64
    let count := pcdErrorSourceCount % 2 ^ 64
    match buffer with
    | none =>
      { status := EfiStatus.bufferTooSmall
        lengthOut := some length
        countOut := some count
        firmwareRegionInitialized := false
        descriptorWritten := false }
    | some _ =>
      { status := EfiStatus.success
        lengthOut := some length
        countOut := some count
        firmwareRegionInitialized := true
        descriptorWritten := true }

/-! ### Concrete instantiation used by witnesses and counterexamples

The size values below are one representative assignment (the claims'
theorems hold for every assignment; witnesses only need some instance). -/

/-- A representative `Sizes` instance for concrete evaluation. -/
def sizesEx : Sizes :=
  { szGenericErrorStatus := 20
    szGenericErrorDataEntry := 72
    szArmProcErrorRecord := 40
    szArmProcErrorInfo := 32
    szArmProcContextInfo := 392
    szContextRegisterArrayInfo := 384
    szMemErrorData := 80
    szCpuErrInfoStruct := 776
    szGhesV2Struct := 92
    idxMpidr := 19
    idxMidr := 18 }

/-- A CPU snapshot with the correctable-error mask clear (no CE bits). -/
def cpuSnapNoCE : CPU_ERR_INFO :=
  { ErrStatus := 0x800000
    ErrMisc0 := 0
    ErrAddr := 0x1234
    SecurityState := SECURE
    ErrCtxGpr := []
    ErrCtxEl1Reg := []
    ErrCtxEl2Reg := []
    ErrCtxEl3Reg := [] }

/-- A CPU snapshot with a correctable-error bit (BIT24) set. -/
def cpuSnapCE : CPU_ERR_INFO :=
  { ErrStatus := 0x1000000
    ErrMisc0 := 0
    ErrAddr := 0x1234
    SecurityState := SECURE
    ErrCtxGpr := []
    ErrCtxEl1Reg := []
    ErrCtxEl2Reg := []
    ErrCtxEl3Reg := [] }

/-- A Secure CPU snapshot with non-trivial register context arrays and an
error syndrome of 0x07 (one below the Cache/TLB threshold). -/
def cpuSnapSec : CPU_ERR_INFO :=
  { ErrStatus := 0x1000007
    ErrMisc0 := 0xAB00000004
    ErrAddr := 0xDEAD
    SecurityState := SECURE
    ErrCtxGpr := [1, 2, 3]
    ErrCtxEl1Reg := [4, 5, 6]
    ErrCtxEl2Reg := [7, 8]
    ErrCtxEl3Reg := [9] }

/-- A CPU snapshot whose error syndrome is exactly the Cache/TLB threshold
value 0x08. -/
def cpuSnapThresh : CPU_ERR_INFO :=
  { ErrStatus := 0x8
    ErrMisc0 := 0
    ErrAddr := 0
    SecurityState := NON_SECURE
    ErrCtxGpr := []
    ErrCtxEl1Reg := []
    ErrCtxEl2Reg := []
    ErrCtxEl3Reg := [] }

/-! ### Properties (statement bodies shared between a claim's theorem and
its witness) -/

/-- Severity rule actually implemented: Corrected (2) whenever the
correctable-error test succeeds, on both paths; otherwise the CPU classifier
writes the Correctable/Recoverable value (0) into header and descriptor,
while the SRAM classifier writes Fatal (1) into both. -/
def SeverityRuleProp (sz : Sizes) (pf : Nat) (e : CPU_ERR_INFO)
    (regs : SramRegisters) (junk : SramUninitLocals) : Prop :=
  (e.ErrStatus &&& CPU_ERR_STATUS_CE_MASK ≠ 0 →
    (cpuRegionWriteOf sz pf e).header.ErrorSeverity =
      EFI_ACPI_ERROR_SEVERITY_CORRECTED ∧
    (cpuRegionWriteOf sz pf e).desc.ErrorSeverity =
      EFI_ACPI_ERROR_SEVERITY_CORRECTED) ∧
  (e.ErrStatus &&& CPU_ERR_STATUS_CE_MASK = 0 →
    (cpuRegionWriteOf sz pf e).header.ErrorSeverity =
      EFI_ACPI_ERROR_SEVERITY_CORRECTABLE ∧
    (cpuRegionWriteOf sz pf e).desc.ErrorSeverity =
      EFI_ACPI_ERROR_SEVERITY_CORRECTABLE) ∧
  (regs.ErrStatus &&& ECC_ERR_STATUS_CE_BIT ≠ 0 →
    (SramErrorHandler sz regs junk).header.ErrorSeverity =
      EFI_ACPI_ERROR_SEVERITY_CORRECTED ∧
    (SramErrorHandler sz regs junk).desc.ErrorSeverity =
      EFI_ACPI_ERROR_SEVERITY_CORRECTED) ∧
  (regs.ErrStatus &&& ECC_ERR_STATUS_CE_BIT = 0 →
    (SramErrorHandler sz regs junk).header.ErrorSeverity =
      EFI_ACPI_ERROR_SEVERITY_FATAL ∧
    (SramErrorHandler sz regs junk).desc.ErrorSeverity =
      EFI_ACPI_ERROR_SEVERITY_FATAL)

/-- For a Secure snapshot the payload and all declared lengths exclude the
three context sub-blocks, and flipping only the security state changes the
copied size but not the error-info sub-record. -/
def SecureExclusionProp (sz : Sizes) (pf : Nat) (e : CPU_ERR_INFO) : Prop :=
  (cpuRegionWriteOf sz pf e).sectionContexts = none ∧
  (cpuRegionWriteOf sz pf e).copiedBytes =
    sz.szArmProcErrorRecord + sz.szArmProcErrorInfo ∧
  (cpuRegionWriteOf sz pf e).desc.ErrorDataLength =
    sz.szArmProcErrorRecord + sz.szArmProcErrorInfo ∧
  (cpuRegionWriteOf sz pf e).header.DataLength =
    sz.szGenericErrorDataEntry + sz.szArmProcErrorRecord +
      sz.szArmProcErrorInfo ∧
  (cpuRegionWriteOf sz pf e).copiedBytes ≠
    (cpuRegionWriteOf sz pf { e with SecurityState := NON_SECURE }).copiedBytes ∧
  (cpuRegionWriteOf sz pf e).sectionErrInfo =
    (cpuRegionWriteOf sz pf { e with SecurityState := NON_SECURE }).sectionErrInfo

/-- The status-block `DataLength` equals
`sizeof(GenericErrorDataEntry) + CPU_SECTION_DATA_SIZE(SecurityState)`, and
between otherwise-identical Secure and NonSecure snapshots it differs by
exactly three context-structure sizes. -/
def CpuDataLengthProp (sz : Sizes) (pf : Nat) (e : CPU_ERR_INFO) : Prop :=
  (cpuRegionWriteOf sz pf e).header.DataLength =
    sz.szGenericErrorDataEntry + CPU_SECTION_DATA_SIZE sz e.SecurityState ∧
  (cpuRegionWriteOf sz pf { e with SecurityState := NON_SECURE }).header.DataLength =
    (cpuRegionWriteOf sz pf { e with SecurityState := SECURE }).header.DataLength +
      3 * sz.szArmProcContextInfo

/-- Cache/TLB classification: syndrome below the 0x08 threshold is Cache,
at or above it TLB; in particular the boundary value is TLB and the value
just below it Cache. -/
def CacheTlbThresholdProp (sz : Sizes) (pf : Nat) (e : CPU_ERR_INFO) : Prop :=
  (e.ErrStatus &&& CPU_ERR_STATUS_SERR_MASK < CPU_ERR_STATUS_SERR_TLB →
    (cpuRegionWriteOf sz pf e).sectionErrInfo.ErrType =
      EFI_ARM_PROC_ERROR_TYPE_CACHE) ∧
  (CPU_ERR_STATUS_SERR_TLB ≤ e.ErrStatus &&& CPU_ERR_STATUS_SERR_MASK →
    (cpuRegionWriteOf sz pf e).sectionErrInfo.ErrType =
      EFI_ARM_PROC_ERROR_TYPE_TLB) ∧
  (e.ErrStatus &&& CPU_ERR_STATUS_SERR_MASK = CPU_ERR_STATUS_SERR_TLB →
    (cpuRegionWriteOf sz pf e).sectionErrInfo.ErrType =
      EFI_ARM_PROC_ERROR_TYPE_TLB) ∧
  (e.ErrStatus &&& CPU_ERR_STATUS_SERR_MASK = CPU_ERR_STATUS_SERR_TLB - 1 →
    (cpuRegionWriteOf sz pf e).sectionErrInfo.ErrType =
      EFI_ARM_PROC_ERROR_TYPE_CACHE)

/-- Actual behaviour of the descriptor-registry fill phase, for both
registries: a non-null buffer of any capacity is written unconditionally
(no size check exists) with Success, and BufferTooSmall arises only on the
null-buffer length query, which writes neither the buffer nor the
firmware-reserved region. -/
def FillPhaseProp (sz : Sizes) (c cap : Nat) : Prop :=
  ((CpuErrorSourceDescInfoGet sz c true true (some cap)).status =
    EfiStatus.success ∧
   (CpuErrorSourceDescInfoGet sz c true true (some cap)).descriptorWritten =
    true ∧
   (CpuErrorSourceDescInfoGet sz c true true (some cap)).firmwareRegionInitialized =
    true ∧
   (CpuErrorSourceDescInfoGet sz c true true none).status =
    EfiStatus.bufferTooSmall ∧
   (CpuErrorSourceDescInfoGet sz c true true none).descriptorWritten = false ∧
   (CpuErrorSourceDescInfoGet sz c true true none).firmwareRegionInitialized =
    false) ∧
  ((SramErrorSourceDescInfoGet sz c true true (some cap)).status =
    EfiStatus.success ∧
   (SramErrorSourceDescInfoGet sz c true true (some cap)).descriptorWritten =
    true ∧
   (SramErrorSourceDescInfoGet sz c true true (some cap)).firmwareRegionInitialized =
    true ∧
   (SramErrorSourceDescInfoGet sz c true true none).status =
    EfiStatus.bufferTooSmall ∧
   (SramErrorSourceDescInfoGet sz c true true none).descriptorWritten = false ∧
   (SramErrorSourceDescInfoGet sz c true true none).firmwareRegionInitialized =
    false)

/-- The section descriptor's declared `ErrorDataLength` equals the byte
count of the payload `CopyMem`, on both paths. -/
def DeclaredLengthProp (sz : Sizes) (pf : Nat) (e : CPU_ERR_INFO)
    (regs : SramRegisters) (junk : SramUninitLocals) : Prop :=
  (cpuRegionWriteOf sz pf e).desc.ErrorDataLength =
    (cpuRegionWriteOf sz pf e).copiedBytes ∧
  (SramErrorHandler sz regs junk).desc.ErrorDataLength =
    (SramErrorHandler sz regs junk).copiedBytes

/-- Failure semantics of both event handlers on malformed comm buffers:
NULL buffer gives InvalidParameter, an undersized buffer gives
BadBufferSize, and in both cases the handler returns before reading the
snapshot / hardware registers or writing the error-status region. -/
def MalformedInputProp (sz : Sizes) (pf n m k : Nat) (e : CPU_ERR_INFO)
    (v : Nat) (regsNS regsS : SramRegisters) (junk : SramUninitLocals) : Prop :=
  (CpuErrorEventHandler sz pf none n).status = EfiStatus.invalidParameter ∧
  (CpuErrorEventHandler sz pf none n).write = none ∧
  (CpuErrorEventHandler sz pf none n).inputRead = false ∧
  (CpuErrorEventHandler sz pf (some e) m).status = EfiStatus.badBufferSize ∧
  (CpuErrorEventHandler sz pf (some e) m).write = none ∧
  (CpuErrorEventHandler sz pf (some e) m).inputRead = false ∧
  (SramErrorEventMmiHandler sz regsNS regsS junk none n).status =
    EfiStatus.invalidParameter ∧
  (SramErrorEventMmiHandler sz regsNS regsS junk none n).write = none ∧
  (SramErrorEventMmiHandler sz regsNS regsS junk (some v) k).status =
    EfiStatus.badBufferSize ∧
  (SramErrorEventMmiHandler sz regsNS regsS junk (some v) k).write = none

/-- On every successful invocation both handlers overwrite the in/out
buffer-size parameter with 0, so the original (necessarily positive) size is
not preserved. -/
def SizeZeroedProp (sz : Sizes) (pf n m : Nat) (b : Option CPU_ERR_INFO)
    (sb : Option Nat) (regsNS regsS : SramRegisters)
    (junk : SramUninitLocals) : Prop :=
  ((CpuErrorEventHandler sz pf b n).status = EfiStatus.success →
    (CpuErrorEventHandler sz pf b n).bufferSizeOut = 0 ∧
    (CpuErrorEventHandler sz pf b n).bufferSizeOut ≠ n) ∧
  ((SramErrorEventMmiHandler sz regsNS regsS junk sb m).status =
      EfiStatus.success →
    (SramErrorEventMmiHandler sz regsNS regsS junk sb m).bufferSizeOut = 0 ∧
    (SramErrorEventMmiHandler sz regsNS regsS junk sb m).bufferSizeOut ≠ m)

/-! ### Claim theorems -/

/-- C1 counterexample: for a CPU snapshot whose correctable-error bit test
fails (here `ErrStatus = BIT23`, only the deferred-error bit), the severity
written into the status-block header and the section descriptor is the
Correctable/Recoverable value 0, not Fatal (1), refuting the claim that the
rule "Corrected if correctable else Fatal" holds for the CPU classifier;
moreover the SRAM classifier, for an uncorrectable-only snapshot whose
uninitialized `CorrectedError` local happens to hold a non-zero residual,
writes Corrected (2), not Fatal. -/
theorem c1_severity_counterexample :
    (cpuRegionWriteOf sizesEx 0 cpuSnapNoCE).header.ErrorSeverity =
      EFI_ACPI_ERROR_SEVERITY_CORRECTABLE ∧
    (cpuRegionWriteOf sizesEx 0 cpuSnapNoCE).desc.ErrorSeverity =
      EFI_ACPI_ERROR_SEVERITY_CORRECTABLE ∧
    EFI_ACPI_ERROR_SEVERITY_CORRECTABLE ≠ EFI_ACPI_ERROR_SEVERITY_FATAL ∧
    (SramErrorHandler sizesEx ⟨0x2, 0, 0xABCD⟩
        ⟨true, false, 0, 0⟩).header.ErrorSeverity ≠
      EFI_ACPI_ERROR_SEVERITY_FATAL := by
  decide

/-- C1 (amended): severity is Corrected (2) in header and descriptor when
the correctable-error test succeeds, on both paths; otherwise the CPU
classifier writes the Correctable/Recoverable value (0) and the SRAM
classifier writes Fatal (1), the latter provided the residual value of its
uninitialized `CorrectedError` local is zero. -/
theorem c1_severity_amended (sz : Sizes) (pf : Nat) (e : CPU_ERR_INFO)
    (regs : SramRegisters) (junk : SramUninitLocals)
    (hjunk : junk.CorrectedError = false) :
    SeverityRuleProp sz pf e regs junk := by
  unfold SeverityRuleProp
  refine ⟨fun h => ?_, fun h => ?_, fun h => ?_, fun h => ?_⟩ <;>
    simp [cpuRegionWriteOf, cpuHeaderOf, cpuDescOf, SramErrorHandler,
      sramCorrectedErrorOf, h, hjunk]

/-- C1 witness: the amended severity rule applied at concrete inputs and
its case implications discharged there. -/
theorem c1_severity_amended_witness :
    (⟨false, false, 0, 0⟩ : SramUninitLocals).CorrectedError = false ∧
    cpuSnapCE.ErrStatus &&& CPU_ERR_STATUS_CE_MASK ≠ 0 ∧
    (cpuRegionWriteOf sizesEx 0 cpuSnapCE).header.ErrorSeverity =
      EFI_ACPI_ERROR_SEVERITY_CORRECTED ∧
    cpuSnapNoCE.ErrStatus &&& CPU_ERR_STATUS_CE_MASK = 0 ∧
    (cpuRegionWriteOf sizesEx 0 cpuSnapNoCE).header.ErrorSeverity =
      EFI_ACPI_ERROR_SEVERITY_CORRECTABLE ∧
    (SramErrorHandler sizesEx ⟨0x2, 0, 0x40⟩
        ⟨false, false, 0, 0⟩).header.ErrorSeverity =
      EFI_ACPI_ERROR_SEVERITY_FATAL :=
  ⟨by decide, by decide,
   ((c1_severity_amended sizesEx 0 cpuSnapCE ⟨0x2, 0, 0x40⟩
       ⟨false, false, 0, 0⟩ (by decide)).1 (by decide)).1,
   by decide,
   ((c1_severity_amended sizesEx 0 cpuSnapNoCE ⟨0x2, 0, 0x40⟩
       ⟨false, false, 0, 0⟩ (by decide)).2.1 (by decide)).1,
   ((c1_severity_amended sizesEx 0 cpuSnapNoCE ⟨0x2, 0, 0x40⟩
       ⟨false, false, 0, 0⟩ (by decide)).2.2.2 (by decide)).1⟩

/-- C2: evaluation at the failing input.  For a CPU snapshot with a
correctable-error bit set (BIT24), the status block the handler writes has
BOTH validity flags set: `CorrectableErrorValid = 1` from the bit test, and
`UncorrectableErrorValid = 1` because the local `CorrectedError` is the
constant 1 (it is initialized to 1 and never reassigned), so the
exactly-one-validity-flag invariant fails. -/
theorem c2_both_validity_flags_set :
    (cpuRegionWriteOf sizesEx 0 cpuSnapCE).header.BlockStatus.CorrectableErrorValid = 1 ∧
    (cpuRegionWriteOf sizesEx 0 cpuSnapCE).header.BlockStatus.UncorrectableErrorValid = 1 := by
  decide

/-- C3: a Secure CPU snapshot yields a payload with no context sub-blocks,
all declared lengths (descriptor `ErrorDataLength`, header `DataLength`) and
the copied byte count equal to the context-free sizes, and flipping only the
security-state field changes the copied size but not the error-info
sub-record. -/
theorem c3_secure_context_exclusion (sz : Sizes) (pf : Nat)
    (e : CPU_ERR_INFO) (hsec : e.SecurityState = SECURE)
    (hctx : 0 < sz.szArmProcContextInfo)
    (hsmall : sz.szGenericErrorDataEntry + sz.szArmProcErrorRecord +
      sz.szArmProcErrorInfo + 3 * sz.szArmProcContextInfo < 2 ^ 32) :
    SecureExclusionProp sz pf e := by
  have h0 : CPU_SECTION_DATA_SIZE sz SECURE =
      sz.szArmProcErrorRecord + sz.szArmProcErrorInfo := by
    unfold CPU_SECTION_DATA_SIZE
    simp [SECURE, CPU_ERR_INFO_NUM, CPU_CONTEXT_INFO_NUM]
    omega
  have h1 : CPU_SECTION_DATA_SIZE sz NON_SECURE =
      sz.szArmProcErrorRecord + sz.szArmProcErrorInfo +
        3 * sz.szArmProcContextInfo := by
    unfold CPU_SECTION_DATA_SIZE
    simp [NON_SECURE, CPU_ERR_INFO_NUM, CPU_CONTEXT_INFO_NUM]
    omega
  unfold SecureExclusionProp
  refine ⟨?_, ?_, ?_, ?_, ?_, ?_⟩
  · simp [cpuRegionWriteOf, cpuContextsOf, hsec, SECURE, NON_SECURE]
  · simp only [cpuRegionWriteOf, hsec, h0]
  · simp only [cpuRegionWriteOf, cpuDescOf, hsec, h0]
    omega
  · simp only [cpuRegionWriteOf, cpuHeaderOf, hsec, h0]
    omega
  · simp only [cpuRegionWriteOf, hsec, h0, h1]
    omega
  · exact rfl

/-- C3 witness: the secure-exclusion property at a concrete snapshot. -/
theorem c3_secure_context_exclusion_witness :
    cpuSnapSec.SecurityState = SECURE ∧
    0 < sizesEx.szArmProcContextInfo ∧
    sizesEx.szGenericErrorDataEntry + sizesEx.szArmProcErrorRecord +
      sizesEx.szArmProcErrorInfo + 3 * sizesEx.szArmProcContextInfo < 2 ^ 32 ∧
    SecureExclusionProp sizesEx 0 cpuSnapSec :=
  ⟨by decide, by decide, by decide,
   c3_secure_context_exclusion sizesEx 0 cpuSnapSec (by decide) (by decide)
     (by decide)⟩

/-- C4: the status-block `DataLength` equals
`sizeof(GenericErrorDataEntry) + CPU_SECTION_DATA_SIZE(SecurityState)`, and
differs by exactly `3 * sizeof(EFI_ARM_PROCESSOR_CONTEXT_INFORMATION)`
between otherwise-identical Secure and NonSecure snapshots. -/
theorem c4_data_length (sz : Sizes) (pf : Nat) (e : CPU_ERR_INFO)
    (hvalid : e.SecurityState ≤ 1)
    (hsmall : sz.szGenericErrorDataEntry + sz.szArmProcErrorRecord +
      sz.szArmProcErrorInfo + 3 * sz.szArmProcContextInfo < 2 ^ 32) :
    CpuDataLengthProp sz pf e := by
  have h0 : CPU_SECTION_DATA_SIZE sz SECURE =
      sz.szArmProcErrorRecord + sz.szArmProcErrorInfo := by
    unfold CPU_SECTION_DATA_SIZE
    simp [SECURE, CPU_ERR_INFO_NUM, CPU_CONTEXT_INFO_NUM]
    omega
  have h1 : CPU_SECTION_DATA_SIZE sz NON_SECURE =
      sz.szArmProcErrorRecord + sz.szArmProcErrorInfo +
        3 * sz.szArmProcContextInfo := by
    unfold CPU_SECTION_DATA_SIZE
    simp [NON_SECURE, CPU_ERR_INFO_NUM, CPU_CONTEXT_INFO_NUM]
    omega
  unfold CpuDataLengthProp
  constructor
  · rcases Nat.le_one_iff_eq_zero_or_eq_one.mp hvalid with h | h
    · have hs : e.SecurityState = SECURE := h
      simp only [cpuRegionWriteOf, cpuHeaderOf, hs, h0]
      omega
    · have hs : e.SecurityState = NON_SECURE := h
      simp only [cpuRegionWriteOf, cpuHeaderOf, hs, h1]
      omega
  · simp only [cpuRegionWriteOf, cpuHeaderOf, h0, h1]
    omega

/-- C4 witness: the `DataLength` property at a concrete snapshot. -/
theorem c4_data_length_witness :
    cpuSnapSec.SecurityState ≤ 1 ∧
    sizesEx.szGenericErrorDataEntry + sizesEx.szArmProcErrorRecord +
      sizesEx.szArmProcErrorInfo + 3 * sizesEx.szArmProcContextInfo < 2 ^ 32 ∧
    CpuDataLengthProp sizesEx 0 cpuSnapSec :=
  ⟨by decide, by decide,
   c4_data_length sizesEx 0 cpuSnapSec (by decide) (by decide)⟩

/-- C5: the error-syndrome sub-field (`ErrStatus & 0xFF`) classifies as
Cache strictly below the 0x08 threshold and as TLB at and above it; in
particular 0x08 gives TLB and 0x07 gives Cache. -/
theorem c5_cache_tlb_threshold (sz : Sizes) (pf : Nat) (e : CPU_ERR_INFO) :
    CacheTlbThresholdProp sz pf e := by
  unfold CacheTlbThresholdProp
  have hproj : (cpuRegionWriteOf sz pf e).sectionErrInfo.ErrType =
      cpuErrorTypeOf e := rfl
  refine ⟨fun h => ?_, fun h => ?_, fun h => ?_, fun h => ?_⟩ <;>
    rw [hproj] <;> unfold cpuErrorTypeOf
  · rw [if_pos h]
  · rw [if_neg (Nat.not_lt.mpr h)]
  · rw [h, if_neg (lt_irrefl _)]
  · rw [h, if_pos (by decide)]

/-- C5 witness: the threshold property applied at concrete snapshots whose
syndromes are exactly the boundary value (0x08, giving TLB) and one below it
(0x07, giving Cache), with the boundary-case implications discharged. -/
theorem c5_cache_tlb_threshold_witness :
    cpuSnapThresh.ErrStatus &&& CPU_ERR_STATUS_SERR_MASK =
      CPU_ERR_STATUS_SERR_TLB ∧
    (cpuRegionWriteOf sizesEx 0 cpuSnapThresh).sectionErrInfo.ErrType =
      EFI_ARM_PROC_ERROR_TYPE_TLB ∧
    cpuSnapSec.ErrStatus &&& CPU_ERR_STATUS_SERR_MASK =
      CPU_ERR_STATUS_SERR_TLB - 1 ∧
    (cpuRegionWriteOf sizesEx 0 cpuSnapSec).sectionErrInfo.ErrType =
      EFI_ARM_PROC_ERROR_TYPE_CACHE :=
  ⟨by decide,
   (c5_cache_tlb_threshold sizesEx 0 cpuSnapThresh).2.2.1 (by decide),
   by decide,
   (c5_cache_tlb_threshold sizesEx 0 cpuSnapSec).2.2.2 (by decide)⟩

/-- C6 counterexample: the length query reports a positive total length
(92 bytes for one source with the representative GHESv2 size), yet a fill
call with a caller buffer of capacity 0 — strictly shorter than that — does
not return BufferTooSmall: it returns Success and writes both the
descriptor and the firmware-reserved region, because the interface never
receives or checks a buffer size. -/
theorem c6_fill_counterexample :
    (CpuErrorSourceDescInfoGet sizesEx 1 true true none).lengthOut = some 92 ∧
    (0 : Nat) < 92 ∧
    (CpuErrorSourceDescInfoGet sizesEx 1 true true (some 0)).status ≠
      EfiStatus.bufferTooSmall ∧
    (CpuErrorSourceDescInfoGet sizesEx 1 true true (some 0)).status =
      EfiStatus.success ∧
    (CpuErrorSourceDescInfoGet sizesEx 1 true true (some 0)).descriptorWritten =
      true ∧
    (CpuErrorSourceDescInfoGet sizesEx 1 true true
        (some 0)).firmwareRegionInitialized = true := by
  decide

/-- C6 (amended): the fill phase performs no buffer-capacity check.
BufferTooSmall is returned exactly on the null-buffer length query, which
writes neither the caller's buffer nor the firmware-reserved region; a call
with any non-null buffer — regardless of its capacity — initializes the
firmware-reserved region, writes the descriptor and returns Success.  This
holds identically for the CPU and SRAM registries. -/
theorem c6_fill_amended (sz : Sizes) (c cap : Nat) :
    FillPhaseProp sz c cap := by
  unfold FillPhaseProp
  refine ⟨⟨?_, ?_, ?_, ?_, ?_, ?_⟩, ?_, ?_, ?_, ?_, ?_, ?_⟩ <;>
    simp [CpuErrorSourceDescInfoGet, SramErrorSourceDescInfoGet]

/-- C6 witness: the fill-phase behaviour at concrete parameters. -/
theorem c6_fill_amended_witness : FillPhaseProp sizesEx 1 0 :=
  c6_fill_amended sizesEx 1 0

/-- C7: evaluation at the failing input.  For an SRAM snapshot with only the
uncorrectable bit (BIT1) set in `ErrStatus`, the claimed `PhysicalAddress`,
`PhysicalAddressMask` and payload-size outputs do hold, but the severity
written is decided by the residual value of the uninitialized local
`CorrectedError` (never assigned on this path): with a non-zero residual the
handler writes Corrected (2), not the claimed Fatal (1); only with a zero
residual does it write Fatal. -/
theorem c7_sram_uncorrectable_eval :
    (SramErrorHandler sizesEx ⟨0x2, 0, 0xABCD⟩
        ⟨true, false, 0, 0⟩).header.ErrorSeverity =
      EFI_ACPI_ERROR_SEVERITY_CORRECTED ∧
    (SramErrorHandler sizesEx ⟨0x2, 0, 0xABCD⟩
        ⟨true, false, 0, 0⟩).desc.ErrorSeverity =
      EFI_ACPI_ERROR_SEVERITY_CORRECTED ∧
    EFI_ACPI_ERROR_SEVERITY_CORRECTED ≠ EFI_ACPI_ERROR_SEVERITY_FATAL ∧
    (SramErrorHandler sizesEx ⟨0x2, 0, 0xABCD⟩
        ⟨false, false, 0, 0⟩).header.ErrorSeverity =
      EFI_ACPI_ERROR_SEVERITY_FATAL ∧
    (SramErrorHandler sizesEx ⟨0x2, 0, 0xABCD⟩
        ⟨false, false, 0, 0⟩).desc.ErrorSeverity =
      EFI_ACPI_ERROR_SEVERITY_FATAL ∧
    (SramErrorHandler sizesEx ⟨0x2, 0, 0xABCD⟩
        ⟨true, false, 0, 0⟩).memorySection.PhysicalAddress = 0xABCD ∧
    (SramErrorHandler sizesEx ⟨0x2, 0, 0xABCD⟩
        ⟨true, false, 0, 0⟩).memorySection.PhysicalAddressMask =
      0xFFFFFFFFFFFF ∧
    (SramErrorHandler sizesEx ⟨0x2, 0, 0xABCD⟩
        ⟨true, false, 0, 0⟩).copiedBytes = sizesEx.szMemErrorData ∧
    (SramErrorHandler sizesEx ⟨0x2, 0, 0xABCD⟩
        ⟨true, false, 0, 0⟩).desc.ErrorDataLength = sizesEx.szMemErrorData := by
  decide

/-- C8: on both the CPU and SRAM paths the `ErrorDataLength` declared in the
section descriptor equals the byte count the final `CopyMem` copies. -/
theorem c8_declared_equals_copied (sz : Sizes) (pf : Nat) (e : CPU_ERR_INFO)
    (regs : SramRegisters) (junk : SramUninitLocals)
    (hcpu : CPU_SECTION_DATA_SIZE sz e.SecurityState < 2 ^ 32)
    (hsram : sz.szMemErrorData < 2 ^ 32) :
    DeclaredLengthProp sz pf e regs junk := by
  unfold DeclaredLengthProp
  constructor
  · show CPU_SECTION_DATA_SIZE sz e.SecurityState % 2 ^ 32 =
      CPU_SECTION_DATA_SIZE sz e.SecurityState
    exact Nat.mod_eq_of_lt hcpu
  · show sz.szMemErrorData % 2 ^ 32 = sz.szMemErrorData
    exact Nat.mod_eq_of_lt hsram

/-- C8 witness: the declared-equals-copied property at concrete inputs. -/
theorem c8_declared_equals_copied_witness :
    CPU_SECTION_DATA_SIZE sizesEx cpuSnapSec.SecurityState < 2 ^ 32 ∧
    sizesEx.szMemErrorData < 2 ^ 32 ∧
    DeclaredLengthProp sizesEx 0 cpuSnapSec ⟨0x1, 0, 0x40⟩
      ⟨false, false, 0, 0⟩ :=
  ⟨by decide, by decide,
   c8_declared_equals_copied sizesEx 0 cpuSnapSec ⟨0x1, 0, 0x40⟩
     ⟨false, false, 0, 0⟩ (by decide) (by decide)⟩

/-- C9: both handlers reject a NULL comm buffer with InvalidParameter and an
undersized one with BadBufferSize, in each case returning before reading the
snapshot or the hardware registers and before writing any byte of the
error-status region. -/
theorem c9_malformed_input (sz : Sizes) (pf n m k : Nat) (e : CPU_ERR_INFO)
    (v : Nat) (regsNS regsS : SramRegisters) (junk : SramUninitLocals)
    (hm : m < sz.szCpuErrInfoStruct) (hk : k < 1) :
    MalformedInputProp sz pf n m k e v regsNS regsS junk := by
  unfold MalformedInputProp
  refine ⟨?_, ?_, ?_, ?_, ?_, ?_, ?_, ?_, ?_, ?_⟩ <;>
    simp [CpuErrorEventHandler, SramErrorEventMmiHandler, hm, hk]

/-- C9 witness: the malformed-input property at concrete inputs (an
undersized CPU buffer of 7 bytes and an SRAM buffer of 0 bytes). -/
theorem c9_malformed_input_witness :
    7 < sizesEx.szCpuErrInfoStruct ∧ (0 : Nat) < 1 ∧
    MalformedInputProp sizesEx 0 5 7 0 cpuSnapSec 1 ⟨1, 0, 2⟩ ⟨0, 0, 3⟩
      ⟨false, false, 0, 0⟩ :=
  ⟨by decide, by decide,
   c9_malformed_input sizesEx 0 5 7 0 cpuSnapSec 1 ⟨1, 0, 2⟩ ⟨0, 0, 3⟩
     ⟨false, false, 0, 0⟩ (by decide) (by decide)⟩

/-- C10: whenever either handler returns Success it has overwritten the
in/out buffer-size parameter with 0, so the (necessarily positive) original
size value is not preserved. -/
theorem c10_buffer_size_zeroed (sz : Sizes) (pf n m : Nat)
    (b : Option CPU_ERR_INFO) (sb : Option Nat)
    (regsNS regsS : SramRegisters) (junk : SramUninitLocals)
    (hsz : 0 < sz.szCpuErrInfoStruct) :
    SizeZeroedProp sz pf n m b sb regsNS regsS junk := by
  unfold SizeZeroedProp
  constructor
  · intro h
    match b with
    | none => simp [CpuErrorEventHandler] at h
    | some e =>
      by_cases hn : n < sz.szCpuErrInfoStruct
      · simp [CpuErrorEventHandler, hn] at h
      · simp [CpuErrorEventHandler, hn]
        omega
  · intro h
    match sb with
    | none => simp [SramErrorEventMmiHandler] at h
    | some v =>
      by_cases hm : m < 1
      · simp [SramErrorEventMmiHandler, hm] at h
      · simp only [SramErrorEventMmiHandler]
        rw [if_neg hm]
        split <;>
          exact ⟨rfl, by show (0 : Nat) ≠ m; omega⟩

/-- C10 witness: successful concrete invocations of both handlers leaving a
zeroed buffer size different from the original one. -/
theorem c10_buffer_size_zeroed_witness :
    0 < sizesEx.szCpuErrInfoStruct ∧
    (CpuErrorEventHandler sizesEx 0 (some cpuSnapSec) 1024).status =
      EfiStatus.success ∧
    ((CpuErrorEventHandler sizesEx 0 (some cpuSnapSec) 1024).bufferSizeOut =
      0 ∧
     (CpuErrorEventHandler sizesEx 0 (some cpuSnapSec) 1024).bufferSizeOut ≠
      1024) ∧
    (SramErrorEventMmiHandler sizesEx ⟨1, 0, 2⟩ ⟨0, 0, 3⟩
        ⟨false, false, 0, 0⟩ (some 1) 8).status = EfiStatus.success ∧
    ((SramErrorEventMmiHandler sizesEx ⟨1, 0, 2⟩ ⟨0, 0, 3⟩
        ⟨false, false, 0, 0⟩ (some 1) 8).bufferSizeOut = 0 ∧
     (SramErrorEventMmiHandler sizesEx ⟨1, 0, 2⟩ ⟨0, 0, 3⟩
        ⟨false, false, 0, 0⟩ (some 1) 8).bufferSizeOut ≠ 8) :=
  ⟨by decide, by decide,
   (c10_buffer_size_zeroed sizesEx 0 1024 8 (some cpuSnapSec) (some 1)
     ⟨1, 0, 2⟩ ⟨0, 0, 3⟩ ⟨false, false, 0, 0⟩ (by decide)).1 (by decide),
   by decide,
   (c10_buffer_size_zeroed sizesEx 0 1024 8 (some cpuSnapSec) (some 1)
     ⟨1, 0, 2⟩ ⟨0, 0, 3⟩ ⟨false, false, 0, 0⟩ (by decide)).2 (by decide)⟩

end ErrorMm
